import Mathlib

set_option maxRecDepth 8000

/-!
Shallow embedding of the anti-pattern detection engine: the conversation
analysis modules `analyzer.py` and `patterns.py` (analyze-conversation) and
`checker.py` (check-antipatterns).  Python strings are Lean `String`s
(Python indexes and slices by code point, as `String.toList` does), Python
ints are `Nat`/`Int`, Python dicts are structures holding exactly the keys
the code reads, and the fixed regular expressions of the source are compiled
by hand into executable matchers over `List Char`.
-/

/-! ## Python string primitives -/

/-- Python whitespace (`str.split()`, `str.strip()`, and regex `\s`). -/
def isPyWs (c : Char) : Bool :=
  c == ' ' || c == '\t' || c == '\n' || c == '\r' || c == '\x0b' || c == '\x0c'

/-- Whether the first list is a prefix of the second. -/
def listIsPfx : List Char → List Char → Bool
  | [], _ => true
  | _ :: _, [] => false
  | a :: as, b :: bs => a == b && listIsPfx as bs

/-- Case-insensitive prefix test: `pat` is already lowercase, characters of
the haystack are lowered one by one (regex `re.IGNORECASE`). -/
def ciIsPfx : List Char → List Char → Bool
  | [], _ => true
  | _ :: _, [] => false
  | a :: as, b :: bs => a == b.toLower && ciIsPfx as bs

/-- Substring scan: some suffix of the haystack starts with the needle. -/
def containsFrom (needle : List Char) : List Char → Bool
  | [] => listIsPfx needle []
  | c :: r => listIsPfx needle (c :: r) || containsFrom needle r

/-- Python `needle in hay` for strings. -/
def strContains (hay needle : String) : Bool :=
  containsFrom needle.toList hay.toList

/-- Python `str.lower()` (content here is ASCII). -/
def pyLower (s : String) : String :=
  String.mk (s.toList.map Char.toLower)

/-- Python `str.strip()`. -/
def pyStrip (s : String) : String :=
  String.mk (((s.toList.dropWhile isPyWs).reverse.dropWhile isPyWs).reverse)

/-- Python `str.startswith(pat)`. -/
def pyStartsWith (s pat : String) : Bool :=
  listIsPfx pat.toList s.toList

/-- Python `len(s)` (code points). -/
def pyLen (s : String) : Nat := s.toList.length

/-- Python slice `s[:n]`. -/
def pyTake (s : String) (n : Nat) : String := String.mk (s.toList.take n)

/-- Python slice `s[a:b]`. -/
def pySlice (s : String) (a b : Nat) : String :=
  String.mk ((s.toList.drop a).take (b - a))

/-- Worker for `pySplitWs`: accumulate the current (reversed) token. -/
def splitWsGo : List Char → List Char → List String
  | [], acc => if acc.isEmpty then [] else [String.mk acc.reverse]
  | c :: r, acc =>
    if isPyWs c then
      if acc.isEmpty then splitWsGo r [] else String.mk acc.reverse :: splitWsGo r []
    else splitWsGo r (c :: acc)

/-- Python `str.split()` with no argument: whitespace runs, no empty tokens. -/
def pySplitWs (s : String) : List String := splitWsGo s.toList []

/-- Worker for `pySplitOn`. -/
def splitOnCharGo (sep : Char) : List Char → List Char → List String
  | [], acc => [String.mk acc.reverse]
  | c :: r, acc =>
    if c == sep then String.mk acc.reverse :: splitOnCharGo sep r []
    else splitOnCharGo sep r (c :: acc)

/-- Python `str.split(sep)` for a one-character separator (keeps empties). -/
def pySplitOn (s : String) (sep : Char) : List String :=
  splitOnCharGo sep s.toList []

/-- Python `sep.join(parts)`. -/
def pyJoin (sep : String) : List String → String
  | [] => ""
  | [x] => x
  | x :: y :: r => x ++ sep ++ pyJoin sep (y :: r)

/-- Worker for `pyReplace`: replace non-overlapping occurrences left to
right (`pat` is nonempty for every use in the source). -/
def replaceFrom (pat rep : List Char) (l : List Char) : List Char :=
  match l with
  | [] => []
  | c :: r =>
    if pat ≠ [] && listIsPfx pat (c :: r) then
      rep ++ replaceFrom pat rep (r.drop (pat.length - 1))
    else c :: replaceFrom pat rep r
termination_by l.length
decreasing_by
  · simp only [List.length_drop, List.length_cons]; omega
  · simp only [List.length_cons]; omega

/-- Python `s.replace(pat, rep)`. -/
def pyReplace (s pat rep : String) : String :=
  String.mk (replaceFrom pat.toList rep.toList s.toList)

/-! ## Hand-compiled regular expressions

The source uses a handful of fixed patterns.  Simple keyword patterns are
compiled to a token list (`RTok`); the three patterns with character
classes (`password...["'].*["']`, the IPv4 literal, and the `http://` URL)
get dedicated matchers.  Case-insensitive searches run on the lowered text
(lowering is length-preserving, so positions carry back to the original). -/

/-- Token of a compiled regex: a literal, `\s*`, `\s+`, an optional single
character (`_?`), or `.*` (any run of non-newline characters). -/
inductive RTok where
  | lit (cs : List Char)
  | ws0
  | ws1
  | optChar (c : Char)
  | gap

/-- Literal token from a string. -/
def litS (s : String) : RTok := .lit s.toList

/-- `.*` continuation: try the rest of the pattern at every suffix reached
without crossing a newline. -/
def gapGo (next : List Char → Bool) : List Char → Bool
  | [] => next []
  | c :: r => next (c :: r) || (c != '\n' && gapGo next r)

/-- Match a token list at the head of `l`.  `\s*` and `\s+` take the maximal
whitespace run (every source pattern follows them with a non-whitespace
literal, so no other split can succeed); `_?` tries the consuming branch
first; `.*` tries every extension that does not cross a newline. -/
def reMatchAt : List RTok → List Char → Bool
  | [], _ => true
  | .lit cs :: ts', l => listIsPfx cs l && reMatchAt ts' (l.drop cs.length)
  | .ws0 :: ts', l => reMatchAt ts' (l.dropWhile isPyWs)
  | .ws1 :: ts', l =>
    decide (0 < (l.takeWhile isPyWs).length)
      && reMatchAt ts' (l.drop (l.takeWhile isPyWs).length)
  | .optChar c :: ts', l =>
    match l with
    | c' :: r => if c' == c then (reMatchAt ts' r || reMatchAt ts' (c' :: r)) else reMatchAt ts' (c' :: r)
    | [] => reMatchAt ts' []
  | .gap :: ts', l => gapGo (reMatchAt ts') l

/-- Match a gap-free token list at the head of `l`, returning the length of
the matched text (used where the source reads `match.start()`/`match.end()`). -/
def reMatchLen : List RTok → List Char → Option Nat
  | [], _ => some 0
  | .lit cs :: ts', l =>
    if listIsPfx cs l then (reMatchLen ts' (l.drop cs.length)).map (cs.length + ·) else none
  | .ws0 :: ts', l =>
    (reMatchLen ts' (l.drop (l.takeWhile isPyWs).length)).map ((l.takeWhile isPyWs).length + ·)
  | .ws1 :: ts', l =>
    if 0 < (l.takeWhile isPyWs).length then
      (reMatchLen ts' (l.drop (l.takeWhile isPyWs).length)).map ((l.takeWhile isPyWs).length + ·)
    else none
  | .optChar c :: ts', l =>
    match l with
    | c' :: r =>
      if c' == c then
        match reMatchLen ts' r with
        | some n => some (n + 1)
        | none => reMatchLen ts' (c' :: r)
      else reMatchLen ts' (c' :: r)
    | [] => reMatchLen ts' []
  | .gap :: _, _ => none

/-- `re.search` existence: the tokens match at some suffix. -/
def reSearchFrom (ts : List RTok) : List Char → Bool
  | [] => reMatchAt ts []
  | c :: r => reMatchAt ts (c :: r) || reSearchFrom ts r

/-- `re.search(pattern, s)` as a Boolean. -/
def reSearch (ts : List RTok) (s : String) : Bool := reSearchFrom ts s.toList

/-- Leftmost match with its span, as `re.search` reports it. -/
def reSearchPosFrom (ts : List RTok) (pos : Nat) : List Char → Option (Nat × Nat)
  | [] => (reMatchLen ts []).map (fun n => (pos, pos + n))
  | c :: r =>
    match reMatchLen ts (c :: r) with
    | some n => some (pos, pos + n)
    | none => reSearchPosFrom ts (pos + 1) r

/-- `re.search(pattern, s)` returning `(match.start(), match.end())`. -/
def reSearchPos (ts : List RTok) (s : String) : Option (Nat × Nat) :=
  reSearchPosFrom ts 0 s.toList

/-- The two quote characters of the class `["']`. -/
def isQuoteCh (c : Char) : Bool := c == '"' || c == '\''

/-- Match of `password\s*=\s*["'].*["']` anchored at the head of an
already-lowered list: after the opening quote, `.*["']` succeeds exactly
when another quote occurs before the next newline. -/
def p1MatchAt (l : List Char) : Bool :=
  if listIsPfx "password".toList l then
    match (l.drop 8).dropWhile isPyWs with
    | '=' :: l2 =>
      match l2.dropWhile isPyWs with
      | q :: l4 => isQuoteCh q && (l4.takeWhile (fun c => c != '\n')).any isQuoteCh
      | [] => false
    | _ => false
  else false

/-- Worker for `p1Search`. -/
def p1SearchFrom : List Char → Bool
  | [] => false
  | c :: r => p1MatchAt (c :: r) || p1SearchFrom r

/-- `re.search(r'password\s*=\s*["\'].*["\']', content, re.IGNORECASE)`. -/
def p1Search (content : String) : Bool :=
  p1SearchFrom (pyLower content).toList

/-- Length of a match of `password\s*=\s*["\'][^"\']+["\']` anchored at the
head of the original-case list (comparison is case-insensitive, the matched
slice keeps its case, as `re.findall` returns it).  `[^"']+` is greedy and
the following `["']` is then forced to be the next quote. -/
def p1FindMatchAt (l : List Char) : Option Nat :=
  if ciIsPfx "password".toList l then
    let rest := l.drop 8
    let w1 := (rest.takeWhile isPyWs).length
    match rest.drop w1 with
    | '=' :: l2 =>
      let w2 := (l2.takeWhile isPyWs).length
      match l2.drop w2 with
      | q :: l4 =>
        if isQuoteCh q then
          let body := (l4.takeWhile (fun c => !isQuoteCh c)).length
          if 0 < body then
            match l4.drop body with
            | q2 :: _ => if isQuoteCh q2 then some (8 + w1 + 1 + w2 + 1 + body + 1) else none
            | [] => none
          else none
        else none
      | [] => none
    | _ => none
  else none

/-- Worker for `p1Findall`: non-overlapping left-to-right matches. -/
def p1FindallFrom (l : List Char) : List String :=
  match l with
  | [] => []
  | c :: r =>
    match p1FindMatchAt (c :: r) with
    | some n => String.mk ((c :: r).take n) :: p1FindallFrom (r.drop (n - 1))
    | none => p1FindallFrom r
termination_by l.length
decreasing_by
  · simp only [List.length_drop, List.length_cons]; omega
  · simp only [List.length_cons]; omega

/-- `re.findall(r'password\s*=\s*["\'][^"\']+["\']', content, re.IGNORECASE)`. -/
def p1Findall (content : String) : List String := p1FindallFrom content.toList

/-- Take exactly `a` digits, returning the rest. -/
def takeDigits (a : Nat) (l : List Char) : Option (List Char) :=
  let d := l.take a
  if d.length == a && d.all Char.isDigit then some (l.drop a) else none

/-- Match `g` dot-separated `\d{1,3}` groups at the head of the list,
returning the match length; each group is greedy with backtracking. -/
def ipMatchGroups : Nat → List Char → Option Nat
  | 0, _ => none
  | 1, l =>
    if (takeDigits 3 l).isSome then some 3
    else if (takeDigits 2 l).isSome then some 2
    else if (takeDigits 1 l).isSome then some 1
    else none
  | g + 2, l =>
    let tryA (a : Nat) : Option Nat :=
      match takeDigits a l with
      | none => none
      | some rest =>
        match rest with
        | '.' :: rest2 => (ipMatchGroups (g + 1) rest2).map (fun n => a + 1 + n)
        | _ => none
    (tryA 3).orElse (fun _ => (tryA 2).orElse (fun _ => tryA 1))

/-- Worker for `ipSearch`. -/
def ipSearchFrom : List Char → Bool
  | [] => false
  | c :: r => (ipMatchGroups 4 (c :: r)).isSome || ipSearchFrom r

/-- `re.search(r'\d{1,3}\.\d{1,3}\.\d{1,3}\.\d{1,3}', content)`. -/
def ipSearch (content : String) : Bool := ipSearchFrom content.toList

/-- Worker for `ipFindall`: non-overlapping left-to-right matches. -/
def ipFindallFrom (l : List Char) : List String :=
  match l with
  | [] => []
  | c :: r =>
    match ipMatchGroups 4 (c :: r) with
    | some n => String.mk ((c :: r).take n) :: ipFindallFrom (r.drop (n - 1))
    | none => ipFindallFrom r
termination_by l.length
decreasing_by
  · simp only [List.length_drop, List.length_cons]; omega
  · simp only [List.length_cons]; omega

/-- `re.findall(r'\d{1,3}\.\d{1,3}\.\d{1,3}\.\d{1,3}', content)`. -/
def ipFindall (content : String) : List String := ipFindallFrom content.toList

/-- A `:` with at least one digit after it somewhere in the list. -/
def colonDigitIn : List Char → Bool
  | [] => false
  | [_] => false
  | ':' :: d :: r => d.isDigit || colonDigitIn (d :: r)
  | _ :: r => colonDigitIn r

/-- Worker for `httpSearch`: `http://.*:\d+` matches at a position exactly
when `http://` sits there and `:digit` occurs later on the same line. -/
def httpSearchFrom : List Char → Bool
  | [] => false
  | c :: r =>
    (listIsPfx "http://".toList (c :: r) &&
      colonDigitIn (((c :: r).drop 7).takeWhile (fun ch => ch != '\n')))
    || httpSearchFrom r

/-- `re.search(r'http://.*:\d+', content)` (case-sensitive in the source). -/
def httpSearch (content : String) : Bool := httpSearchFrom content.toList

/-- Index of the last `:` (at position ≥ 1) followed by a digit, scanning a
non-whitespace run — the split the greedy `[^\s]+` backtracks to. -/
def lastColonDigitGo : List Char → Nat → Option Nat → Option Nat
  | [], _, best => best
  | c :: r, i, best =>
    let best' :=
      if c == ':' && decide (1 ≤ i) && (match r with | d :: _ => d.isDigit | [] => false)
      then some i else best
    lastColonDigitGo r (i + 1) best'

/-- Match length of `http://[^\s]+:\d+` anchored at the head of the list. -/
def httpMatchAt (l : List Char) : Option Nat :=
  if listIsPfx "http://".toList l then
    let run := (l.drop 7).takeWhile (fun c => !isPyWs c)
    match lastColonDigitGo run 0 none with
    | some k =>
      let ds := ((run.drop (k + 1)).takeWhile Char.isDigit).length
      some (7 + k + 1 + ds)
    | none => none
  else none

/-- Worker for `httpFindall`: non-overlapping left-to-right matches. -/
def httpFindallFrom (l : List Char) : List String :=
  match l with
  | [] => []
  | c :: r =>
    match httpMatchAt (c :: r) with
    | some n => String.mk ((c :: r).take n) :: httpFindallFrom (r.drop (n - 1))
    | none => httpFindallFrom r
termination_by l.length
decreasing_by
  · simp only [List.length_drop, List.length_cons]; omega
  · simp only [List.length_cons]; omega

/-- `re.findall(r'http://[^\s]+:\d+', content)`. -/
def httpFindall (content : String) : List String := httpFindallFrom content.toList

/-! ## Data model

A JSONL record, restricted to the keys the engine reads: `type`,
`message.content`, `timestamp`.  Content is either a bare string, a list of
items, or some other value (whose Python `str()` form the `other`
constructor carries).  An item is a dict (restricted to the keys read:
`type`, `text`, `thinking`, `name`, `input.command`), a bare string, or
something else. -/

structure ItemFields where
  type? : Option String
  text? : Option String
  thinking? : Option String
  name? : Option String
  command? : Option String
deriving DecidableEq

inductive Item where
  | dict (f : ItemFields)
  | str (s : String)
  | other
deriving DecidableEq

inductive Content where
  | str (s : String)
  | items (l : List Item)
  | other (pyRepr : String)
deriving DecidableEq

structure Message where
  type? : Option String
  content? : Option Content
  timestamp? : Option String
deriving DecidableEq

/-- `msg.get('message', {}).get('content', '')`. -/
def contentForText (m : Message) : Content := m.content?.getD (Content.str "")

/-- `msg.get('message', {}).get('content', [])` followed by the
`isinstance(content, list)` guard. -/
def contentItems? (m : Message) : Option (List Item) :=
  match m.content?.getD (Content.items []) with
  | .items l => some l
  | _ => none

/-- `msg.get('timestamp', '')`. -/
def msgTs (m : Message) : String := m.timestamp?.getD ""

/-- `isinstance(item, dict) and item.get('name') == 'Bash'`, yielding
`item.get('input', {}).get('command', '')`. -/
def bashCmd? : Item → Option String
  | .dict f => if f.name? == some "Bash" then some (f.command?.getD "") else none
  | _ => none

/-- A dict item `{'type': 'text', 'text': s}`. -/
def mkText (s : String) : Item := .dict ⟨some "text", some s, none, none, none⟩

/-- A dict item `{'type': 'thinking', 'thinking': s}`. -/
def mkThinking (s : String) : Item := .dict ⟨some "thinking", none, some s, none, none⟩

/-- A Bash tool-call item `{'name': 'Bash', 'input': {'command': cmd}}`. -/
def mkBash (cmd : String) : Item := .dict ⟨none, none, none, some "Bash", some cmd⟩

/-- A user record with plain string content. -/
def userMsg (s : String) : Message := ⟨some "user", some (.str s), none⟩

/-- An assistant record with plain string content. -/
def assistantText (s : String) : Message := ⟨some "assistant", some (.str s), none⟩

/-- An assistant record with a content list. -/
def assistantItems (l : List Item) : Message := ⟨some "assistant", some (.items l), none⟩

/-! ## analyzer.py -/

namespace Analyzer

/-- `extract_text_from_content` of analyzer.py: bare strings pass through,
text items contribute their text, thinking items contribute a 200-character
preview wrapped in a `[THINKING: ...]` marker, bare string items pass
through, and any other value is rendered with `str()`. -/
def extract_text_from_content (content : Content) : String :=
  match content with
  | .str s => s
  | .items l =>
    pyJoin "\n" (l.filterMap (fun item =>
      match item with
      | .dict f =>
        if f.type? == some "text" then some (f.text?.getD "")
        else if f.type? == some "thinking" then
          some ("[THINKING: " ++ pyTake (f.thinking?.getD "") 200 ++ "...]")
        else none
      | .str s => some s
      | .other => none))
  | .other r => r

end Analyzer

/-! ## patterns.py -/

namespace Patterns

/-- `extract_text` of patterns.py: only items with `type == 'text'`
contribute; any non-string, non-list content yields the empty string. -/
def extract_text (content : Content) : String :=
  match content with
  | .str s => s
  | .items l =>
    pyJoin "\n" (l.filterMap (fun item =>
      match item with
      | .dict f => if f.type? == some "text" then some (f.text?.getD "") else none
      | _ => none))
  | .other _ => ""

/-- A finding of `find_credential_antipatterns`: the `evidence` value is a
list of matches for the hardcoded-password pattern and a fixed string for
the assumed-credential pattern. -/
inductive CredEvidence where
  | strs (l : List String)
  | str (s : String)
deriving DecidableEq

structure CredFinding where
  ftype : String
  index : Nat
  timestamp : String
  evidence : CredEvidence
  context : String
deriving DecidableEq

/-- Body of the `find_credential_antipatterns` loop for one message. -/
def credPerMsg (i : Nat) (m : Message) : List CredFinding :=
  if m.type? == some "assistant" then
    let content := extract_text (contentForText m)
    (if p1Search content then
      [⟨"HARDCODED_PASSWORD", i, msgTs m, .strs (p1Findall content), pyTake content 300⟩]
    else []) ++
    (if strContains content "PASSWORD" && !strContains content "kubectl get secret"
        && (["export", "DATA_PLANE_DB_PASSWORD", "DB_PASSWORD"].any
              (fun k => strContains content k)) then
      [⟨"ASSUMED_CREDENTIAL", i, msgTs m,
        .str "Used PASSWORD env var without reading from secret", pyTake content 300⟩]
    else [])
  else []

/-- `find_credential_antipatterns` of patterns.py. -/
def find_credential_antipatterns (messages : List Message) : List CredFinding :=
  messages.enum.flatMap (fun p => credPerMsg p.1 p.2)

/-- `NORMAL_RETRY_COMMANDS` of patterns.py. -/
def NORMAL_RETRY_COMMANDS : List String :=
  ["pytest", "python -m pytest", "npm test", "npm run test",
   "go test", "cargo test", "make test",
   "git status", "git diff", "git log",
   "kubectl get", "kubectl describe", "docker ps",
   "ls", "pwd", "cat", "head", "tail"]

/-- `is_normal_retry_command` of patterns.py. -/
def is_normal_retry_command (cmd : String) : Bool :=
  NORMAL_RETRY_COMMANDS.any (fun n => pyStartsWith (pyStrip (pyLower cmd)) n)

/-- Entry of the `recent_commands` list. -/
structure RecentCmd where
  cmd : String
  idx : Nat
  ts : String
deriving DecidableEq

structure RetryFinding where
  ftype : String
  command : String
  first_attempt : Nat
  retry_attempt : Nat
  timestamp : String
  evidence : String
deriving DecidableEq

/-- The diagnosis keywords of `find_retry_without_diagnosis` (matched
case-sensitively in the source). -/
def retryDiagWords : List String :=
  ["kubectl logs", "kubectl describe", "kubectl get events", "error", "failed", "traceback"]

/-- The diagnosis scan of `find_retry_without_diagnosis`: it walks the slice
`messages[first:i]` — the half-open interval including the first index. -/
def checkedLogsBetween (messages : List Message) (first i : Nat) : Bool :=
  ((messages.drop first).take (i - first)).any (fun cm =>
    retryDiagWords.any (fun w => strContains (extract_text (contentForText cm)) w))

/-- `recent_commands[-6:-1]`: the up-to-five entries before the last one. -/
def retryPrevWindow (recent : List RecentCmd) : List RecentCmd :=
  (recent.take (recent.length - 1)).drop (recent.length - 6)

/-- Findings the inner loop emits for the command just appended. -/
def retryFindingsAt (messages : List Message) (i : Nat) (ts cmd : String)
    (recent : List RecentCmd) : List RetryFinding :=
  if 2 ≤ recent.length then
    (retryPrevWindow recent).filterMap (fun prev =>
      if prev.cmd == cmd then
        if checkedLogsBetween messages prev.idx i then none
        else some ⟨"RETRY_WITHOUT_DIAGNOSIS", pyTake cmd 100, prev.idx, i, ts,
                   "Retried command without checking logs/events"⟩
      else none)
  else []

/-- Item loop of `find_retry_without_diagnosis` for one assistant message:
threads `recent_commands` and collects findings in emission order. -/
def retryItems (messages : List Message) (i : Nat) (ts : String) :
    List Item → List RecentCmd → List RecentCmd × List RetryFinding
  | [], recent => (recent, [])
  | item :: rest, recent =>
    match bashCmd? item with
    | some cmd =>
      let recent' := recent ++ [⟨cmd, i, ts⟩]
      if is_normal_retry_command cmd then retryItems messages i ts rest recent'
      else
        let fs := retryFindingsAt messages i ts cmd recent'
        let step := retryItems messages i ts rest recent'
        (step.1, fs ++ step.2)
    | none => retryItems messages i ts rest recent

/-- Message loop of `find_retry_without_diagnosis`. -/
def retryMsgs (messages : List Message) :
    List (Nat × Message) → List RecentCmd → List RetryFinding
  | [], _ => []
  | (i, m) :: rest, recent =>
    if m.type? == some "assistant" then
      match contentItems? m with
      | some itemsL =>
        let step := retryItems messages i (msgTs m) itemsL recent
        step.2 ++ retryMsgs messages rest step.1
      | none => retryMsgs messages rest recent
    else retryMsgs messages rest recent

/-- `find_retry_without_diagnosis` of patterns.py. -/
def find_retry_without_diagnosis (messages : List Message) : List RetryFinding :=
  retryMsgs messages messages.enum []

/-- `expansion_indicators` of `find_scope_creep`, verbatim — note the
capitalised entry. -/
def expansion_indicators : List String :=
  ["also create", "also build", "also implement", "also add",
   "we should also", "let me also", "additionally",
   "I will also", "we need to also"]

structure ScopeFinding where
  ftype : String
  original_request : String
  expansion : String
  request_index : Nat
  expansion_index : Nat
  timestamp : String
deriving DecidableEq

/-- State machine of `find_scope_creep`: the most recent user request text
and index; an empty request string is falsy in Python and disables the
assistant branch. -/
def scopeGo : List (Nat × Message) → Option (String × Nat) → List ScopeFinding
  | [], _ => []
  | (i, m) :: rest, cur =>
    if m.type? == some "user" then
      scopeGo rest (some (extract_text (contentForText m), i))
    else if m.type? == some "assistant" then
      match cur with
      | some (req, reqIdx) =>
        if req == "" then scopeGo rest cur
        else
          let content := extract_text (contentForText m)
          let fs := expansion_indicators.flatMap (fun ind =>
            if strContains (pyLower content) ind then
              (pySplitOn content '.').filterMap (fun sent =>
                if strContains (pyLower sent) ind then
                  some ⟨"SCOPE_EXPANSION", pyTake req 200, pyTake (pyStrip sent) 300,
                        reqIdx, i, msgTs m⟩
                else none)
            else [])
          fs ++ scopeGo rest cur
      | none => scopeGo rest cur
    else scopeGo rest cur

/-- `find_scope_creep` of patterns.py. -/
def find_scope_creep (messages : List Message) : List ScopeFinding :=
  scopeGo messages.enum none

structure VerifyFinding where
  ftype : String
  evidence : List String
  index : Nat
  timestamp : String
  context : String
deriving DecidableEq

/-- Body of the `find_missing_verification` loop for one message. -/
def verifyPerMsg (i : Nat) (m : Message) : List VerifyFinding :=
  if m.type? == some "assistant" then
    let content := extract_text (contentForText m)
    (if ipSearch content then
      if !strContains content "docker inspect" && !strContains content "kubectl get" then
        if ["export", "PLANE_URL=", "  url:", "endpoint:"].any
            (fun k => strContains content k) then
          [⟨"UNVERIFIED_IP_USAGE", ipFindall content, i, msgTs m, pyTake content 300⟩]
        else []
      else []
    else []) ++
    (if httpSearch content then
      if !strContains content "curl" && !strContains content "requests.get"
          && !strContains content "await" then
        if strContains content "export" || strContains content "=" then
          [⟨"UNVERIFIED_SERVICE_URL", httpFindall content, i, msgTs m, pyTake content 200⟩]
        else []
      else []
    else [])
  else []

/-- `find_missing_verification` of patterns.py. -/
def find_missing_verification (messages : List Message) : List VerifyFinding :=
  messages.enum.flatMap (fun p => verifyPerMsg p.1 p.2)

structure Opportunity where
  sequence : String
  count : Nat
  tool_name : String
deriving DecidableEq

structure Opportunities where
  repeated_sequences : List Opportunity
  manual_checks : List Opportunity
  error_prone_ops : List Opportunity
deriving DecidableEq

/-- Sequence collection of `find_tool_opportunities`: runs of consecutive
Bash commands, broken (and recorded when of length ≥ 2) by an assistant
message with a content list but no Bash item; non-assistant and
non-list-content messages are skipped without breaking the run; a trailing
unfinished run is discarded, as in the source. -/
def seqCollect : List Message → List String → List (List String) × List String
  | [], cur => ([], cur)
  | m :: rest, cur =>
    if m.type? == some "assistant" then
      match contentItems? m with
      | some itemsL =>
        let cmds := itemsL.filterMap bashCmd?
        if cmds.isEmpty then
          let step := seqCollect rest []
          (if 2 ≤ cur.length then cur :: step.1 else step.1, step.2)
        else seqCollect rest (cur ++ cmds)
      | none => seqCollect rest cur
    else seqCollect rest cur

/-- `Counter` update: keys in first-insertion order, as Python dicts keep
them. -/
def bumpKey : List (String × Nat) → String → List (String × Nat)
  | [], k => [(k, 1)]
  | (k', n) :: r, k => if k' == k then (k', n + 1) :: r else (k', n) :: bumpKey r k

/-- Insert before the first strictly smaller count (stable descending). -/
def insertDesc (x : String × Nat) : List (String × Nat) → List (String × Nat)
  | [] => [x]
  | y :: r => if y.2 < x.2 then x :: y :: r else y :: insertDesc x r

/-- `Counter.most_common`: stable sort by count descending (equal counts
keep insertion order). -/
def sortCountDesc (l : List (String × Nat)) : List (String × Nat) :=
  l.foldl (fun acc x => insertDesc x acc) []

/-- Derived tool name for a repeated sequence. -/
def oppToolName (key : String) : String :=
  "myproject-" ++
    pyReplace (pyReplace ((pySplitWs key).headD "") "kubectl" "k8s") "docker" "docker"

/-- `find_tool_opportunities` of patterns.py. -/
def find_tool_opportunities (messages : List Message) : Opportunities :=
  let seqs := (seqCollect messages []).1
  let counter := seqs.foldl (fun acc seq =>
    if 2 ≤ seq.length then
      let key := pyJoin " && " seq
      if pyLen key < 200 then bumpKey acc key else acc
    else acc) []
  let mc := (sortCountDesc counter).take 10
  let reps := mc.foldl (fun acc kc =>
    if 2 ≤ kc.2 then acc ++ [(⟨kc.1, kc.2, oppToolName kc.1⟩ : Opportunity)] else acc) []
  ⟨reps, [], []⟩

/-- All Bash commands the retry detector walks past, in order. -/
def msgBashCmds (m : Message) : List String :=
  if m.type? == some "assistant" then
    match contentItems? m with
    | some l => l.filterMap bashCmd?
    | none => []
  else []

/-- All Bash commands of a transcript, in order. -/
def allBashCmds (messages : List Message) : List String :=
  messages.flatMap msgBashCmds

end Patterns

/-! ## checker.py -/

namespace Checker

/-- `DIAGNOSTIC_COMMANDS` of checker.py. -/
def DIAGNOSTIC_COMMANDS : List String :=
  ["git status", "git diff", "git log",
   "kubectl get", "kubectl describe", "kubectl logs", "kubectl get events",
   "curl", "docker ps", "docker images",
   "ls", "cat", "head", "tail",
   "ps aux", "netstat", "lsof"]

/-- `ACTION_COMMANDS` of checker.py — note that it lists the test runners
`pytest`, `npm test`, `npm run test` and `npx playwright` as actions. -/
def ACTION_COMMANDS : List String :=
  ["pytest", "npm test", "npm run test", "npx playwright",
   "helm install", "helm upgrade",
   "kubectl apply", "kubectl create", "kubectl delete",
   "docker build", "docker push",
   "git commit", "git push",
   "bootstrap", "deploy", "make"]

/-- `CREDENTIAL_PATTERNS` of checker.py, compiled (searched with
`re.IGNORECASE`, so the literals are lowercase and the command is lowered). -/
def CREDENTIAL_PATTERNS : List (List RTok) :=
  [[litS "password", .ws0, litS "="],
   [litS "secret", .ws0, litS "="],
   [litS "api", .optChar '_', litS "key", .ws0, litS "="],
   [litS "token", .ws0, litS "="],
   [litS "credential", .ws0, litS "="],
   [litS "apikey", .ws0, litS "="],
   [litS "secret_key", .ws0, litS "="]]

/-- `E2E_TEST_PATTERNS` of checker.py, compiled. -/
def E2E_TEST_PATTERNS : List (List RTok) :=
  [[litS "pytest", .gap, litS "e2e"],
   [litS "pytest", .gap, litS "integration"],
   [litS "npx", .ws1, litS "playwright"],
   [litS "npm", .gap, litS "test", .gap, litS "e2e"],
   [litS "npm", .gap, litS "test", .gap, litS "integration"],
   [litS "npm", .ws1, litS "run", .ws1, litS "test:e2e"],
   [litS "npm", .ws1, litS "run", .ws1, litS "test:integration"]]

/-- `extract_bash_commands` of checker.py. -/
def extract_bash_commands (messages : List Message) : List (Nat × String) :=
  messages.enum.flatMap (fun p =>
    if p.2.type? == some "assistant" then
      match contentItems? p.2 with
      | some l => l.filterMap (fun it => (bashCmd? it).map (fun c => (p.1, c)))
      | none => []
    else [])

/-- `extract_text` of checker.py (textually identical to the patterns.py
one). -/
def extract_text (content : Content) : String :=
  match content with
  | .str s => s
  | .items l =>
    pyJoin "\n" (l.filterMap (fun item =>
      match item with
      | .dict f => if f.type? == some "text" then some (f.text?.getD "") else none
      | _ => none))
  | .other _ => ""

/-- `is_action_command` of checker.py. -/
def is_action_command (cmd : String) : Bool :=
  ACTION_COMMANDS.any (fun a => pyStartsWith (pyStrip (pyLower cmd)) a)

/-- `is_diagnostic_command` of checker.py (defined in the source but never
consulted by `check_retry_without_diagnosis`). -/
def is_diagnostic_command (cmd : String) : Bool :=
  DIAGNOSTIC_COMMANDS.any (fun d => pyStartsWith (pyStrip (pyLower cmd)) d)

structure Warning where
  wtype : String
  severity : String
  message_range : String
  command : String
  suggestion : String
deriving DecidableEq

/-- Diagnostic keywords of `check_retry_without_diagnosis` (matched against
lowered text). -/
def checkerDiagKws : List String :=
  ["kubectl logs", "kubectl describe", "kubectl get events",
   "docker logs", "journalctl", "cat /var/log"]

/-- The diagnosis scan of `check_retry_without_diagnosis`: indices strictly
between the two occurrences, skipping out-of-range ones, keywords matched
case-insensitively. -/
def diagnosticBetween (messages : List Message) (first second : Nat) : Bool :=
  (List.range' (first + 1) (second - (first + 1))).any (fun j =>
    match messages[j]? with
    | some m => checkerDiagKws.any (fun kw =>
        strContains (pyLower (extract_text (contentForText m))) kw)
    | none => false)

/-- `' '.join(cmd.split()[:3])`. -/
def normalizeCmd (cmd : String) : String := pyJoin " " ((pySplitWs cmd).take 3)

/-- `defaultdict(list)` update, keys kept in first-insertion order. -/
def insertOcc (acc : List (String × List (Nat × String))) (k : String)
    (e : Nat × String) : List (String × List (Nat × String)) :=
  match acc with
  | [] => [(k, [e])]
  | (k', es) :: rest => if k' == k then (k', es ++ [e]) :: rest else (k', es) :: insertOcc rest k e

/-- `check_retry_without_diagnosis` of checker.py: groups action commands by
normalized key, then walks consecutive occurrence pairs. -/
def check_retry_without_diagnosis (messages : List Message) : List Warning :=
  let commands := extract_bash_commands messages
  let occ := commands.foldl (fun acc p =>
    if is_action_command p.2 then insertOcc acc (normalizeCmd p.2) p else acc) []
  occ.flatMap (fun ko =>
    if ko.2.length < 2 then []
    else (ko.2.zip (ko.2.drop 1)).flatMap (fun pr =>
      if diagnosticBetween messages pr.1.1 pr.2.1 then []
      else [⟨"RETRY_WITHOUT_DIAGNOSIS", "MEDIUM",
             toString pr.1.1 ++ "-" ++ toString pr.2.1, pyTake pr.1.2 100,
             "Run diagnostics before retrying: kubectl logs, kubectl describe, kubectl get events"⟩]))

/-- First pass of `check_credential_usage`: indices of assistant messages
whose text mentions `kubectl get secret` (or the literal `kubectl.*secret`). -/
def kubectlSecretIndices (messages : List Message) : List Nat :=
  messages.enum.filterMap (fun p =>
    if p.2.type? == some "assistant" then
      let content := extract_text (contentForText p.2)
      if strContains (pyLower content) "kubectl get secret"
          || strContains (pyLower content) "kubectl.*secret"
      then some p.1 else none
    else none)

/-- First credential pattern matching the command, with the match span. -/
def credFirstMatchGo (cmd : String) (pidx : Nat) :
    List (List RTok) → Option (Nat × Nat × Nat)
  | [] => none
  | p :: rest =>
    match reSearchPos p (pyLower cmd) with
    | some se => some (pidx, se.1, se.2)
    | none => credFirstMatchGo cmd (pidx + 1) rest

/-- The `for pattern in CREDENTIAL_PATTERNS ... break` scan. -/
def credFirstMatch (cmd : String) : Option (Nat × Nat × Nat) :=
  credFirstMatchGo cmd 0 CREDENTIAL_PATTERNS

/-- `abs(usage_idx - secret_idx) <= 20 and secret_idx <= usage_idx` for some
collected secret-read index. -/
def hasSecretReadNear (messages : List Message) (usageIdx : Nat) : Bool :=
  (kubectlSecretIndices messages).any (fun s =>
    decide (((usageIdx : Int) - (s : Int)).natAbs ≤ 20) && decide (s ≤ usageIdx))

/-- The credential usages `(idx, cmd, pattern)` the second pass collects. -/
def credUsagesOf (messages : List Message) : List (Nat × String × Nat) :=
  (extract_bash_commands messages).filterMap (fun p =>
    (credFirstMatch p.2).map (fun t => (p.1, p.2, t.1)))

/-- `cmd[max(0, match.start()-10):min(len(cmd), match.end()+30)]`, with the
source's fallback when the re-run search fails. -/
def credSnippet (cmd : String) (patIdx : Nat) : String :=
  match reSearchPos (CREDENTIAL_PATTERNS.getD patIdx []) (pyLower cmd) with
  | some se => pySlice cmd (se.1 - 10) (min (pyLen cmd) (se.2 + 30))
  | none => pyTake cmd 50

/-- The CREDENTIAL_ASSUMPTION warning for one usage. -/
def mkCredWarning (u : Nat × String × Nat) : Warning :=
  ⟨"CREDENTIAL_ASSUMPTION", "HIGH", toString u.1,
   "Found: " ++ credSnippet u.2.1 u.2.2 ++ "...",
   "Read from K8s secret: kubectl get secret <name> -o jsonpath=\x27\x7b.data.password\x7d\x27 | base64 -d"⟩

/-- One step of the usage-collection loop of `check_credential_usage`. -/
def credUsageStep (acc : List (Nat × String × Nat)) (p : Nat × String) :
    List (Nat × String × Nat) :=
  match credFirstMatch p.2 with
  | some t => acc ++ [(p.1, p.2, t.1)]
  | none => acc

/-- One step of the warning loop of `check_credential_usage`. -/
def credWarnStep (messages : List Message) (ws : List Warning) (u : Nat × String × Nat) :
    List Warning :=
  if hasSecretReadNear messages u.1 then ws else ws ++ [mkCredWarning u]

/-- `check_credential_usage` of checker.py. -/
def check_credential_usage (messages : List Message) : List Warning :=
  let usages := (extract_bash_commands messages).foldl credUsageStep []
  usages.foldl (credWarnStep messages) []

/-- Preflight keywords of `check_preflight_missing`. -/
def preflightKws : List String :=
  ["kubectl get pods", "kubectl get svc", "docker ps", "curl", "health", "preflight"]

/-- The warning `check_preflight_missing` emits for one test command. -/
def mkPreflightWarning (ti : Nat) (cmd : String) : Warning :=
  let testType :=
    if strContains (pyLower cmd) "playwright" then "Playwright E2E"
    else if strContains (pyLower cmd) "integration" then "Integration test"
    else "E2E test"
  ⟨"MISSING_PREFLIGHT", "HIGH", toString ti,
   testType ++ ": " ++ pyTake cmd 60 ++ "...",
   "Run preflight validation: kubectl get pods -A, curl http://localhost:<port>/health"⟩

/-- `check_preflight_missing` of checker.py. -/
def check_preflight_missing (messages : List Message) : List Warning :=
  let commands := extract_bash_commands messages
  let tests := commands.filterMap (fun p =>
    if E2E_TEST_PATTERNS.any (fun pat => reSearch pat (pyLower p.2)) then some p else none)
  let preflight := messages.enum.filterMap (fun p =>
    if p.2.type? == some "assistant"
        && preflightKws.any (fun kw =>
             strContains (pyLower (extract_text (contentForText p.2))) kw)
    then some p.1 else none)
  tests.foldl (fun ws t =>
    if preflight.any (fun pre =>
        decide (((t.1 : Int) - (pre : Int)).natAbs ≤ 10) && decide (pre < t.1))
    then ws else ws ++ [mkPreflightWarning t.1 t.2]) []

/-- Tool-discovery markers of `check_tool_discovery`. -/
def toolDiscoveryMarkers : List String :=
  ["ls ~/.local/bin", "ls ./scripts", "cat tools.md"]

/-- The discovery scan of `check_tool_discovery`. -/
def toolDiscovered (messages : List Message) : Bool :=
  messages.any (fun m =>
    m.type? == some "assistant" &&
      toolDiscoveryMarkers.any (fun kw =>
        strContains (pyLower (extract_text (contentForText m))) kw))

/-- Suggestion string of the TOOL_DISCOVERY_GAP warning. -/
def toolDiscoverySuggestion : String :=
  "Check for existing tools: ls ~/.local/bin ~/bin ./scripts/ && cat TOOLS.md"

/-- `check_tool_discovery` of checker.py: silent below 50 messages, one LOW
warning when no discovery command ever ran. -/
def check_tool_discovery (messages : List Message) : List Warning :=
  if messages.length < 50 then []
  else if toolDiscovered messages then []
  else [⟨"TOOL_DISCOVERY_GAP", "LOW", "0-" ++ toString messages.length, "N/A",
         toolDiscoverySuggestion⟩]

/-- Python `int(x)` for a real value: truncation toward zero. -/
def pyTrunc (x : ℚ) : Int := if 0 ≤ x then ⌊x⌋ else ⌈x⌉

/-- The compliance computation of `generate_report`:
`int(((total_rules - violations) / total_rules) * 100) if total_rules > 0
else 100`.  Python evaluates the division in floating point; over the exact
rationals used here the truncated result is identical for the integer
ranges involved. -/
def complianceScore (total_rules violations : Nat) : Int :=
  if 0 < total_rules then
    pyTrunc ((((total_rules : ℚ) - (violations : ℚ)) / (total_rules : ℚ)) * 100)
  else 100

end Checker

/-- Modelled from the spec: the claimed compliance formula
`round(100 × (total_rule_count − violation_count) / total_rule_count)`
clamped to the interval [0, 100]. -/
def specComplianceScore (total_rules violations : Nat) : Int :=
  if 0 < total_rules then
    max 0 (min 100 (round ((((total_rules : ℚ) - (violations : ℚ)) / (total_rules : ℚ)) * 100)))
  else 100

/-! ## Detector pipelines with an explicit analysis state

Every detector of the source only reads the message list; translated
operation by operation, none of them performs a write on it.  The pipelines
below thread the loaded message sequence through the detector calls the two
entry points make, each detector extending only its own output list. -/

structure CheckerRun where
  msgs : List Message
  warnings : List Checker.Warning

/-- Run one detector on the state's message sequence, appending its warnings. -/
def detectorStep (d : List Message → List Checker.Warning) (s : CheckerRun) : CheckerRun :=
  ⟨s.msgs, s.warnings ++ d s.msgs⟩

/-- Python `messages[-n:]`. -/
def lastN (n : Nat) (l : List α) : List α := l.drop (l.length - n)

/-- The detector phase of checker.py's `main`: retry and preflight run on
the trailing 50 messages, credentials and tool discovery on the full
transcript, all four extending one warnings list. -/
def checkerPipeline (all : List Message) : CheckerRun :=
  detectorStep Checker.check_tool_discovery
    (detectorStep Checker.check_credential_usage
      (detectorStep (fun ms => Checker.check_preflight_missing (lastN 50 ms))
        (detectorStep (fun ms => Checker.check_retry_without_diagnosis (lastN 50 ms))
          ⟨all, []⟩)))

structure PatternsRun where
  msgs : List Message
  cred : List Patterns.CredFinding
  retries : List Patterns.RetryFinding
  scope : List Patterns.ScopeFinding
  verify : List Patterns.VerifyFinding
  opps : Patterns.Opportunities

/-- Credential detector step of the patterns.py driver. -/
def pStepCred (s : PatternsRun) : PatternsRun :=
  ⟨s.msgs, s.cred ++ Patterns.find_credential_antipatterns s.msgs,
   s.retries, s.scope, s.verify, s.opps⟩

/-- Retry detector step. -/
def pStepRetry (s : PatternsRun) : PatternsRun :=
  ⟨s.msgs, s.cred, s.retries ++ Patterns.find_retry_without_diagnosis s.msgs,
   s.scope, s.verify, s.opps⟩

/-- Scope-expansion detector step. -/
def pStepScope (s : PatternsRun) : PatternsRun :=
  ⟨s.msgs, s.cred, s.retries, s.scope ++ Patterns.find_scope_creep s.msgs,
   s.verify, s.opps⟩

/-- Unverified-value detector step. -/
def pStepVerify (s : PatternsRun) : PatternsRun :=
  ⟨s.msgs, s.cred, s.retries, s.scope,
   s.verify ++ Patterns.find_missing_verification s.msgs, s.opps⟩

/-- Tool-opportunity detector step (the source assigns the result dict). -/
def pStepOpps (s : PatternsRun) : PatternsRun :=
  ⟨s.msgs, s.cred, s.retries, s.scope, s.verify,
   Patterns.find_tool_opportunities s.msgs⟩

/-- The detector phase of patterns.py's driver, in its call order. -/
def patternsPipeline (messages : List Message) : PatternsRun :=
  pStepOpps (pStepVerify (pStepScope (pStepRetry (pStepCred
    ⟨messages, [], [], [], [], ⟨[], [], []⟩⟩))))

/-! ## Concrete transcripts for the scenario claims -/

/-- Three `kubectl apply -f a.yaml` calls at indices 2, 5 and 9, with no
diagnostic keyword anywhere between them. -/
def transcriptT1 : List Message :=
  [userMsg "deploy the app",
   assistantText "ok",
   assistantItems [mkBash "kubectl apply -f a.yaml"],
   userMsg "it did not work",
   assistantText "retrying",
   assistantItems [mkBash "kubectl apply -f a.yaml"],
   userMsg "still broken",
   assistantText "trying again",
   userMsg "hmm",
   assistantItems [mkBash "kubectl apply -f a.yaml"]]

/-- `pytest test_foo.py` run three times with nothing between. -/
def transcriptT2 : List Message :=
  [assistantItems [mkBash "pytest test_foo.py"],
   assistantItems [mkBash "pytest test_foo.py"],
   assistantItems [mkBash "pytest test_foo.py"]]

/-- Assistant text with the unquoted literal assignment of the claim. -/
def transcriptT4bad : List Message :=
  [assistantText "PASSWORD=supersecret123"]

/-- Assistant text with a quoted literal password assignment. -/
def transcriptT4good : List Message :=
  [assistantText "password=\"supersecret123\""]

/-- The secret-reading export command of the claim. -/
def exportSecretCmd : String :=
  "export DB_PASSWORD=$(kubectl get secret db -o jsonpath=\x27\x7b.data.password\x7d\x27 | base64 -d)"

/-- The export command as a bare Bash tool call (no text item). -/
def transcriptT5bash : List Message :=
  [assistantItems [mkBash exportSecretCmd]]

/-- The export command as assistant text. -/
def transcriptT5text : List Message :=
  [assistantText exportSecretCmd]

/-- The scope-expansion scenario of the claim. -/
def transcriptT6 : List Message :=
  [userMsg "rename this function",
   assistantText "I\x27ll rename it. I will also refactor the error handling module."]

/-- Two adjacent retries where the first message itself carries the
diagnosis keyword in its text. -/
def transcriptT7a : List Message :=
  [assistantItems [mkText "error", mkBash "kubectl apply -f a.yaml"],
   assistantItems [mkBash "kubectl apply -f a.yaml"]]

/-- Two retries with a capitalised `Error` strictly between them. -/
def transcriptT7b : List Message :=
  [assistantItems [mkBash "kubectl apply -f a.yaml"],
   assistantText "Error",
   assistantItems [mkBash "kubectl apply -f a.yaml"]]

/-! ## Helper lemmas -/



/-- The second component of an `enumFrom` entry is a list member. -/
theorem snd_mem_of_mem_enumFrom {α : Type} :
    ∀ (l : List α) (k : Nat) (p : Nat × α), p ∈ List.enumFrom k l → p.2 ∈ l := by
  intro l
  induction l with
  | nil => intro k p h; simp [List.enumFrom] at h
  | cons a t ih =>
    intro k p h
    simp only [List.enumFrom, List.mem_cons] at h
    rcases h with h | h
    · subst h; simp
    · exact List.mem_cons_of_mem _ (ih (k + 1) p h)

/-- Bash commands the retry detector sees for one list entry are among the
transcript's Bash commands. -/
theorem msgBashCmds_subset_allBashCmds (messages : List Message) (m : Message)
    (hm : m ∈ messages) (c : String) (hc : c ∈ Patterns.msgBashCmds m) :
    c ∈ Patterns.allBashCmds messages := by
  exact List.mem_flatMap.2 ⟨m, hm, hc⟩

/-- Item loop of the retry detector: no finding comes from a run of Bash
commands that are all normal-retry commands. -/
theorem retryItems_normal_nil (messages : List Message) (i : Nat) (ts : String) :
    ∀ (itemsL : List Item) (recent : List Patterns.RecentCmd),
      (∀ c ∈ itemsL.filterMap bashCmd?, Patterns.is_normal_retry_command c = true) →
      (Patterns.retryItems messages i ts itemsL recent).2 = [] := by
  intro itemsL
  induction itemsL with
  | nil => intro recent _; rfl
  | cons item rest ih =>
    intro recent hall
    cases h : bashCmd? item with
    | some cmd =>
      have hcmd : Patterns.is_normal_retry_command cmd = true := by
        apply hall
        simp [List.filterMap_cons, h]
      simp [Patterns.retryItems, h, hcmd]
      apply ih
      intro c hc
      apply hall
      simp [List.filterMap_cons, h]
      right; exact List.mem_filterMap.1 hc
    | none =>
      simp [Patterns.retryItems, h]
      apply ih
      intro c hc
      apply hall
      simp [List.filterMap_cons, h]
      exact List.mem_filterMap.1 hc

/-- Message loop of the retry detector: no finding on a transcript whose
Bash commands are all normal-retry commands. -/
theorem retryMsgs_normal_nil (messages : List Message) :
    ∀ (pairs : List (Nat × Message)) (recent : List Patterns.RecentCmd),
      (∀ p ∈ pairs, ∀ c ∈ Patterns.msgBashCmds p.2, Patterns.is_normal_retry_command c = true) →
      Patterns.retryMsgs messages pairs recent = [] := by
  intro pairs
  induction pairs with
  | nil => intro recent _; rfl
  | cons p rest ih =>
    intro recent hall
    obtain ⟨i, m⟩ := p
    by_cases hat : m.type? == some "assistant"
    · cases hcl : contentItems? m with
      | some itemsL =>
        have hcmds : ∀ c ∈ itemsL.filterMap bashCmd?,
            Patterns.is_normal_retry_command c = true := by
          intro c hc
          apply hall (i, m) (List.mem_cons_self _ _)
          simp [Patterns.msgBashCmds, hat, hcl]
          exact List.mem_filterMap.1 hc
        simp [Patterns.retryMsgs, hat, hcl,
              retryItems_normal_nil messages i (msgTs m) itemsL recent hcmds]
        exact ih _ (fun q hq => hall q (List.mem_cons_of_mem _ hq))
      | none =>
        simp [Patterns.retryMsgs, hat, hcl]
        exact ih _ (fun q hq => hall q (List.mem_cons_of_mem _ hq))
    · simp only [Bool.not_eq_true] at hat
      simp [Patterns.retryMsgs, hat]
      exact ih _ (fun q hq => hall q (List.mem_cons_of_mem _ hq))

/-! ## Claims -/

/-- C1, counterexample: on the transcript with identical `kubectl apply -f
a.yaml` calls at indices 2, 5 and 9 and no diagnostic keyword between them,
the patterns.py retry detector emits three findings — for the pairs (2,5),
(2,9) and (5,9) — not exactly the two consecutive pairs the claim states. -/
theorem c1_counterexample :
    (Patterns.find_retry_without_diagnosis transcriptT1).map
        (fun f => (f.first_attempt, f.retry_attempt))
      = [(2, 5), (2, 9), (5, 9)] := by decide

/-- C1, amended: on that transcript the checker.py detector emits exactly
the two consecutive-pair findings (2,5) and (5,9) with severity MEDIUM,
while the patterns.py detector emits a finding for every pair of equal
commands within its five-back window — (2,5), (2,9) and (5,9). -/
theorem c1_amended :
    (Checker.check_retry_without_diagnosis transcriptT1).map
        (fun w => (w.wtype, w.severity, w.message_range))
      = [("RETRY_WITHOUT_DIAGNOSIS", "MEDIUM", "2-5"),
         ("RETRY_WITHOUT_DIAGNOSIS", "MEDIUM", "5-9")]
    ∧ (Patterns.find_retry_without_diagnosis transcriptT1).map
        (fun f => (f.ftype, f.first_attempt, f.retry_attempt))
      = [("RETRY_WITHOUT_DIAGNOSIS", 2, 5), ("RETRY_WITHOUT_DIAGNOSIS", 2, 9),
         ("RETRY_WITHOUT_DIAGNOSIS", 5, 9)] := by
  constructor <;> decide

/-- C2, counterexample: `pytest test_foo.py` run three times with nothing in
between — `pytest` is listed in checker.py's ACTION_COMMANDS and no
diagnostic/test precedence is applied there, so the checker.py retry
detector does emit RETRY_WITHOUT_DIAGNOSIS findings for it. -/
theorem c2_counterexample :
    (Checker.check_retry_without_diagnosis transcriptT2).map
        (fun w => (w.wtype, w.message_range))
      = [("RETRY_WITHOUT_DIAGNOSIS", "0-1"), ("RETRY_WITHOUT_DIAGNOSIS", "1-2")] := by
  decide

/-- C2, amended: the patterns.py retry detector never emits a finding on a
transcript all of whose Bash commands match a normal-retry prefix (test,
status and inspection commands), no matter how often they repeat; the
checker.py detector has no such exclusion. -/
theorem c2_amended (messages : List Message)
    (h : ∀ c ∈ Patterns.allBashCmds messages, Patterns.is_normal_retry_command c = true) :
    Patterns.find_retry_without_diagnosis messages = [] := by
  unfold Patterns.find_retry_without_diagnosis
  apply retryMsgs_normal_nil
  intro p hp c hc
  exact h c (msgBashCmds_subset_allBashCmds messages p.2
    (snd_mem_of_mem_enumFrom messages 0 p hp) c hc)

/-- C2, witness: the three-pytest transcript satisfies the hypothesis and
yields no patterns.py finding. -/
theorem c2_witness :
    (∀ c ∈ Patterns.allBashCmds transcriptT2, Patterns.is_normal_retry_command c = true)
    ∧ Patterns.find_retry_without_diagnosis transcriptT2 = [] :=
  ⟨by decide, c2_amended transcriptT2 (by decide)⟩

/-- C6: on the scenario transcript — user asks to rename, assistant answers
"I'll rename it. I will also refactor the error handling module." — the
scope-expansion detector emits no finding at all: the indicator list entry
"I will also" keeps a capital I while the text is lowercased before the
comparison, so it can never match (the analyzer module spells the same
indicator in lowercase). -/
theorem c6_code_eval : Patterns.find_scope_creep transcriptT6 = [] := by decide

/-- C8, counterexample: a thinking item is dropped entirely by the
patterns.py and checker.py extractors (empty result), while the analyzer.py
extractor keeps it with the `[THINKING: ...]` marker — so not every text
extraction includes truncated thinking content. -/
theorem c8_counterexample :
    Patterns.extract_text (.items [mkThinking "x"]) = ""
    ∧ Checker.extract_text (.items [mkThinking "x"]) = ""
    ∧ Analyzer.extract_text_from_content (.items [mkThinking "x"])
        = "[THINKING: x...]" := by
  refine ⟨by decide, by decide, by decide⟩

/-- C8, amended: all three extractors return a bare string as-is and join
text items with newline separators; only the analyzer.py extractor includes
thinking content, truncated to a 200-character preview inside a
`[THINKING: ...]` marker — the patterns.py and checker.py extractors drop
thinking items. -/
theorem c8_amended :
    (∀ s, Patterns.extract_text (.str s) = s ∧ Checker.extract_text (.str s) = s
       ∧ Analyzer.extract_text_from_content (.str s) = s)
    ∧ (∀ a b, Patterns.extract_text (.items [mkText a, mkText b]) = a ++ "\n" ++ b
       ∧ Checker.extract_text (.items [mkText a, mkText b]) = a ++ "\n" ++ b
       ∧ Analyzer.extract_text_from_content (.items [mkText a, mkText b]) = a ++ "\n" ++ b)
    ∧ (∀ s, Analyzer.extract_text_from_content (.items [mkThinking s])
         = "[THINKING: " ++ pyTake s 200 ++ "...]")
    ∧ (∀ s, Patterns.extract_text (.items [mkThinking s]) = ""
       ∧ Checker.extract_text (.items [mkThinking s]) = "") := by
  refine ⟨fun s => ⟨rfl, rfl, rfl⟩, fun a b => ⟨rfl, rfl, rfl⟩, fun s => rfl,
          fun s => ⟨rfl, rfl⟩⟩

/-- C9: the state-threaded detector pipelines of both entry points leave the
loaded message sequence unchanged, and the merged output is exactly the
concatenation of the per-detector finding lists, each detector computed
from the same original sequence (retry and preflight on the trailing-50
slice, as checker.py's main dispatches them). -/
theorem c9_immutability (messages : List Message) :
    (checkerPipeline messages).msgs = messages
    ∧ (checkerPipeline messages).warnings
        = Checker.check_retry_without_diagnosis (lastN 50 messages)
          ++ Checker.check_preflight_missing (lastN 50 messages)
          ++ Checker.check_credential_usage messages
          ++ Checker.check_tool_discovery messages
    ∧ (patternsPipeline messages).msgs = messages
    ∧ (patternsPipeline messages).cred = Patterns.find_credential_antipatterns messages
    ∧ (patternsPipeline messages).retries = Patterns.find_retry_without_diagnosis messages
    ∧ (patternsPipeline messages).scope = Patterns.find_scope_creep messages
    ∧ (patternsPipeline messages).verify = Patterns.find_missing_verification messages
    ∧ (patternsPipeline messages).opps = Patterns.find_tool_opportunities messages := by
  refine ⟨rfl, ?_, rfl, ?_, ?_, ?_, ?_, rfl⟩ <;>
    simp [checkerPipeline, detectorStep, patternsPipeline,
          pStepCred, pStepRetry, pStepScope, pStepVerify, pStepOpps,
          List.append_assoc]

/-- C10: the tool-discovery detector is silent on any transcript of fewer
than 50 messages, and on a transcript of 50 or more messages with no
discovery command it emits exactly the one TOOL_DISCOVERY_GAP warning of
severity LOW. -/
theorem c10_tool_discovery (messages : List Message) :
    (messages.length < 50 → Checker.check_tool_discovery messages = [])
    ∧ (50 ≤ messages.length → Checker.toolDiscovered messages = false →
        Checker.check_tool_discovery messages
          = [⟨"TOOL_DISCOVERY_GAP", "LOW", "0-" ++ toString messages.length, "N/A",
              Checker.toolDiscoverySuggestion⟩]) := by
  constructor
  · intro h
    simp [Checker.check_tool_discovery, h]
  · intro h50 hnd
    have : ¬ messages.length < 50 := by omega
    simp [Checker.check_tool_discovery, this, hnd]

/-- C10, witness: a 49-message transcript yields nothing; a 50-message
transcript with no discovery command yields the single LOW warning. -/
theorem c10_witness :
    ((List.replicate 49 (userMsg "hi")).length < 50
      ∧ Checker.check_tool_discovery (List.replicate 49 (userMsg "hi")) = [])
    ∧ (50 ≤ (List.replicate 50 (userMsg "hi")).length
      ∧ Checker.toolDiscovered (List.replicate 50 (userMsg "hi")) = false
      ∧ Checker.check_tool_discovery (List.replicate 50 (userMsg "hi"))
          = [⟨"TOOL_DISCOVERY_GAP", "LOW",
              "0-" ++ toString (List.replicate 50 (userMsg "hi")).length, "N/A",
              Checker.toolDiscoverySuggestion⟩]) :=
  ⟨⟨by decide, (c10_tool_discovery _).1 (by decide)⟩,
   ⟨by decide, by decide, (c10_tool_discovery _).2 (by decide) (by decide)⟩⟩

/-- C3, counterexample: with 3 rules and 6 warnings the code's score is
−100 while the claimed formula gives the clamp 0; with 3 rules and 1
warning the code truncates to 66 while the claimed formula rounds to 67. -/
theorem c3_counterexample :
    Checker.complianceScore 3 6 = -100 ∧ specComplianceScore 3 6 = 0
    ∧ Checker.complianceScore 3 1 = 66 ∧ specComplianceScore 3 1 = 67 := by
  have hc : ((-100 : ℤ) : ℚ) = (-100 : ℚ) := by norm_num
  refine ⟨?_, ?_, ?_, ?_⟩
  · norm_num [Checker.complianceScore, Checker.pyTrunc]
    rw [← hc, Int.ceil_intCast]
  · norm_num [specComplianceScore, round_eq]
  · norm_num [Checker.complianceScore, Checker.pyTrunc]
  · norm_num [specComplianceScore, round_eq]

/-- C3, amended: the code computes `int(((t − v) / t) * 100)` — truncation
toward zero, no rounding and no clamping.  The score never exceeds 100 and
is nonnegative whenever the warning count is at most the rule count, but
when warnings exceed the rules it goes negative (−100 at twice the rule
count), not 0. -/
theorem c3_amended (t v : Nat) (ht : 0 < t) :
    Checker.complianceScore t v ≤ 100
    ∧ (v ≤ t → 0 ≤ Checker.complianceScore t v)
    ∧ Checker.complianceScore t (2 * t) = -100 := by
  have htq : (0 : ℚ) < (t : ℚ) := by exact_mod_cast ht
  refine ⟨?_, ?_, ?_⟩
  · unfold Checker.complianceScore Checker.pyTrunc
    rw [if_pos ht]
    have hx100 : (((t : ℚ) - (v : ℚ)) / (t : ℚ)) * 100 ≤ 100 := by
      have h1 : ((t : ℚ) - (v : ℚ)) / (t : ℚ) ≤ 1 := by
        rw [div_le_one htq]
        have hv : (0 : ℚ) ≤ (v : ℚ) := by positivity
        linarith
      calc ((t : ℚ) - (v : ℚ)) / (t : ℚ) * 100 ≤ 1 * 100 := by
            exact mul_le_mul_of_nonneg_right h1 (by norm_num)
        _ = 100 := by norm_num
    by_cases h0 : (0 : ℚ) ≤ (((t : ℚ) - (v : ℚ)) / (t : ℚ)) * 100
    · rw [if_pos h0]
      calc ⌊(((t : ℚ) - (v : ℚ)) / (t : ℚ)) * 100⌋ ≤ ⌊(100 : ℚ)⌋ :=
            Int.floor_le_floor hx100
        _ = 100 := by norm_num
    · rw [if_neg h0]
      exact Int.ceil_le.mpr (by exact_mod_cast hx100)
  · intro hvt
    unfold Checker.complianceScore Checker.pyTrunc
    rw [if_pos ht]
    have h0 : (0 : ℚ) ≤ (((t : ℚ) - (v : ℚ)) / (t : ℚ)) * 100 := by
      apply mul_nonneg _ (by norm_num)
      apply div_nonneg _ (le_of_lt htq)
      have hv : (v : ℚ) ≤ (t : ℚ) := by exact_mod_cast hvt
      linarith
    rw [if_pos h0]
    exact Int.floor_nonneg.mpr h0
  · unfold Checker.complianceScore Checker.pyTrunc
    rw [if_pos ht]
    have hval : (((t : ℚ) - ((2 * t : Nat) : ℚ)) / (t : ℚ)) * 100 = -100 := by
      have htne : (t : ℚ) ≠ 0 := ne_of_gt htq
      push_cast
      field_simp
      ring
    rw [hval, if_neg (by norm_num)]
    have hc : ((-100 : ℤ) : ℚ) = (-100 : ℚ) := by norm_num
    rw [← hc, Int.ceil_intCast]

/-- C3, witness: applying the amended theorem at 3 rules. -/
theorem c3_witness :
    0 < 3
    ∧ Checker.complianceScore 3 1 ≤ 100
    ∧ 0 ≤ Checker.complianceScore 3 1
    ∧ Checker.complianceScore 3 (2 * 3) = -100 :=
  ⟨by decide, (c3_amended 3 1 (by decide)).1,
   (c3_amended 3 1 (by decide)).2.1 (by decide),
   (c3_amended 3 1 (by decide)).2.2⟩

/-- The filter used to isolate HARDCODED_PASSWORD findings at one index. -/
theorem credPerMsg_filter_ne (i j : Nat) (m : Message) (hne : j ≠ i) :
    (Patterns.credPerMsg j m).filter
      (fun f => f.ftype == "HARDCODED_PASSWORD" && f.index == i) = [] := by
  have hji : (j == i) = false := by simp [hne]
  unfold Patterns.credPerMsg
  by_cases h1 : (m.type? == some "assistant") = true
  · simp only [h1, if_true]
    split_ifs <;> simp [List.filter, hji]
  · simp only [Bool.not_eq_true] at h1
    simp [h1]

/-- Entries of the enumeration past the index of interest contribute no
finding at that index. -/
theorem flatMap_enumFrom_filter_gt (i : Nat) :
    ∀ (l : List Message) (k : Nat), i < k →
      (((List.enumFrom k l).flatMap (fun p => Patterns.credPerMsg p.1 p.2)).filter
        (fun f => f.ftype == "HARDCODED_PASSWORD" && f.index == i)) = [] := by
  intro l
  induction l with
  | nil => intro k _; simp [List.enumFrom]
  | cons m t ih =>
    intro k hk
    simp only [List.enumFrom, List.flatMap_cons, List.filter_append]
    rw [credPerMsg_filter_ne i k m (by omega), ih (k + 1) (by omega)]
    rfl

/-- The HARDCODED_PASSWORD findings at index `i` all come from the message
at position `i` of the enumeration. -/
theorem flatMap_enumFrom_filter_eq (i : Nat) :
    ∀ (l : List Message) (k : Nat) (m : Message), k ≤ i → l[i - k]? = some m →
      (((List.enumFrom k l).flatMap (fun p => Patterns.credPerMsg p.1 p.2)).filter
        (fun f => f.ftype == "HARDCODED_PASSWORD" && f.index == i))
      = (Patterns.credPerMsg i m).filter
          (fun f => f.ftype == "HARDCODED_PASSWORD" && f.index == i) := by
  intro l
  induction l with
  | nil => intro k m _ hm; simp at hm
  | cons hd t ih =>
    intro k m hk hm
    simp only [List.enumFrom, List.flatMap_cons, List.filter_append]
    by_cases hki : k = i
    · have h0 : i - k = 0 := by omega
      rw [h0] at hm
      simp only [List.getElem?_cons_zero, Option.some.injEq] at hm
      rw [flatMap_enumFrom_filter_gt i t (k + 1) (by omega), hki, hm]
      simp
    · have hki' : k < i := lt_of_le_of_ne hk hki
      have hidx : i - k = (i - (k + 1)) + 1 := by omega
      rw [hidx] at hm
      simp only [List.getElem?_cons_succ] at hm
      rw [credPerMsg_filter_ne i k hd (by omega), ih (k + 1) m (by omega) hm]
      simp

/-- C4, counterexample: the unquoted literal assignment
`PASSWORD=supersecret123` in assistant text produces no finding at all —
the hardcoded-password pattern requires a quoted value, and the usage
pattern additionally requires an `export`/`DB_PASSWORD` keyword. -/
theorem c4_counterexample :
    Patterns.find_credential_antipatterns transcriptT4bad = [] := by decide

/-- C4, amended: for every assistant message whose extracted text matches
the quoted pattern `password\s*=\s*["'].*["']` (the assigned value must be
quoted), the credential detector emits exactly one HARDCODED_PASSWORD
finding for that message, regardless of any other content in the message or
the surrounding transcript; the finding record carries no severity field. -/
theorem c4_amended (messages : List Message) (i : Nat) (m : Message)
    (hm : messages[i]? = some m)
    (ha : m.type? = some "assistant")
    (hp : p1Search (Patterns.extract_text (contentForText m)) = true) :
    (Patterns.find_credential_antipatterns messages).filter
        (fun f => f.ftype == "HARDCODED_PASSWORD" && f.index == i)
      = [⟨"HARDCODED_PASSWORD", i, msgTs m,
          .strs (p1Findall (Patterns.extract_text (contentForText m))),
          pyTake (Patterns.extract_text (contentForText m)) 300⟩] := by
  unfold Patterns.find_credential_antipatterns
  have henum : messages.enum = List.enumFrom 0 messages := rfl
  have hm0 : messages[i - 0]? = some m := by simpa using hm
  rw [henum, flatMap_enumFrom_filter_eq i messages 0 m (Nat.zero_le i) hm0]
  unfold Patterns.credPerMsg
  have ha' : (m.type? == some "assistant") = true := by simp [ha]
  simp only [ha', if_true, hp]
  split_ifs <;> simp [List.filter]

/-- C4, witness: the quoted assignment `password="supersecret123"` as the
only message yields exactly that one finding at index 0. -/
theorem c4_witness :
    (transcriptT4good[0]? = some (assistantText "password=\"supersecret123\"")
     ∧ (assistantText "password=\"supersecret123\"").type? = some "assistant"
     ∧ p1Search (Patterns.extract_text
         (contentForText (assistantText "password=\"supersecret123\""))) = true)
    ∧ (Patterns.find_credential_antipatterns transcriptT4good).filter
        (fun f => f.ftype == "HARDCODED_PASSWORD" && f.index == 0)
      = [⟨"HARDCODED_PASSWORD", 0,
          msgTs (assistantText "password=\"supersecret123\""),
          .strs (p1Findall (Patterns.extract_text
            (contentForText (assistantText "password=\"supersecret123\"")))),
          pyTake (Patterns.extract_text
            (contentForText (assistantText "password=\"supersecret123\""))) 300⟩] :=
  ⟨⟨rfl, rfl, by decide⟩,
   c4_amended transcriptT4good 0 (assistantText "password=\"supersecret123\"")
     rfl rfl (by decide)⟩


/-- C5, counterexample: the secret-reading export command, issued as a bare
Bash tool call, still produces one CREDENTIAL_ASSUMPTION finding — the
marker scan only reads message text, which is empty here, so the
`kubectl get secret` inside the command does not suppress the finding. -/
theorem c5_counterexample :
    (Checker.check_credential_usage transcriptT5bash).map
        (fun w => (w.wtype, w.severity, w.message_range))
      = [("CREDENTIAL_ASSUMPTION", "HIGH", "0")] := by decide

/-- C5, amended: a credential usage (a Bash command matching one of the
credential patterns) yields a CREDENTIAL_ASSUMPTION warning exactly when no
secret-read marker index lies within 20 messages at or before it, where the
marker indices are those of assistant messages whose extracted text — not
their commands — mentions `kubectl get secret`; consequently the example
export command suppresses the finding only when it occurs in message text
(patterns.py detector), not as a bare tool call. -/
theorem c5_amended (messages : List Message) :
    Checker.check_credential_usage messages
      = ((Checker.credUsagesOf messages).filter
          (fun u => !Checker.hasSecretReadNear messages u.1)).map Checker.mkCredWarning
    ∧ (∀ u, Checker.hasSecretReadNear messages u = true
        ↔ ∃ s ∈ Checker.kubectlSecretIndices messages, s ≤ u ∧ u ≤ s + 20)
    ∧ Patterns.find_credential_antipatterns transcriptT5text = [] := by
  refine ⟨?_, ?_, by decide⟩
  · have h1 : ∀ (l : List (Nat × String)) (acc : List (Nat × String × Nat)),
        l.foldl Checker.credUsageStep acc
          = acc ++ l.filterMap (fun p => (Checker.credFirstMatch p.2).map
              (fun t => (p.1, p.2, t.1))) := by
      intro l
      induction l with
      | nil => intro acc; simp
      | cons a t ih =>
        intro acc
        cases h : Checker.credFirstMatch a.2 with
        | some b =>
          simp only [List.foldl_cons, List.filterMap_cons, Checker.credUsageStep, h,
                     Option.map_some', ih]
          simp
        | none =>
          simp only [List.foldl_cons, List.filterMap_cons, Checker.credUsageStep, h,
                     Option.map_none', ih]
    have h2 : ∀ (l : List (Nat × String × Nat)) (acc : List Checker.Warning),
        l.foldl (Checker.credWarnStep messages) acc
          = acc ++ (l.filter (fun u => !Checker.hasSecretReadNear messages u.1)).map
              Checker.mkCredWarning := by
      intro l
      induction l with
      | nil => intro acc; simp
      | cons a t ih =>
        intro acc
        by_cases h : Checker.hasSecretReadNear messages a.1 = true
        · simp [List.foldl_cons, Checker.credWarnStep, h, ih]
        · simp only [Bool.not_eq_true] at h
          simp [List.foldl_cons, Checker.credWarnStep, h, ih]
    calc Checker.check_credential_usage messages
        = ((Checker.extract_bash_commands messages).foldl Checker.credUsageStep []).foldl
            (Checker.credWarnStep messages) [] := rfl
      _ = (Checker.credUsagesOf messages).foldl (Checker.credWarnStep messages) [] := by
          rw [h1]
          rfl
      _ = ((Checker.credUsagesOf messages).filter
            (fun u => !Checker.hasSecretReadNear messages u.1)).map Checker.mkCredWarning := by
          rw [h2]
          rfl
  · intro u
    unfold Checker.hasSecretReadNear
    rw [List.any_eq_true]
    constructor
    · rintro ⟨s, hs, hcond⟩
      simp only [Bool.and_eq_true, decide_eq_true_eq] at hcond
      exact ⟨s, hs, hcond.2, by omega⟩
    · rintro ⟨s, hs, h1, h2⟩
      refine ⟨s, hs, ?_⟩
      simp only [Bool.and_eq_true, decide_eq_true_eq]
      constructor
      · omega
      · exact h1

/-- Membership in a `take` in terms of positions. -/
theorem mem_take_iff_idx {α : Type} :
    ∀ (L : List α) (n : Nat) (x : α), x ∈ L.take n ↔ ∃ i, i < n ∧ L[i]? = some x := by
  intro L
  induction L with
  | nil => intro n x; simp
  | cons h t ih =>
    intro n x
    cases n with
    | zero => simp
    | succ n' =>
      simp only [List.take_succ_cons, List.mem_cons]
      constructor
      · rintro (rfl | hx)
        · exact ⟨0, by omega, by simp⟩
        · obtain ⟨i, hi, hg⟩ := (ih n' x).1 hx
          exact ⟨i + 1, by omega, by simpa using hg⟩
      · rintro ⟨i, hi, hg⟩
        cases i with
        | zero =>
          left
          simp only [List.getElem?_cons_zero, Option.some.injEq] at hg
          exact hg.symm
        | succ i' =>
          right
          exact (ih n' x).2 ⟨i', by omega, by simpa using hg⟩

/-- Membership in the slice `l[a : a + n]` in terms of absolute positions. -/
theorem mem_drop_take_iff {α : Type} (l : List α) (a n : Nat) (x : α) :
    x ∈ (l.drop a).take n ↔ ∃ j, a ≤ j ∧ j < a + n ∧ l[j]? = some x := by
  rw [mem_take_iff_idx]
  constructor
  · rintro ⟨i, hi, hg⟩
    rw [List.getElem?_drop] at hg
    exact ⟨a + i, by omega, by omega, hg⟩
  · rintro ⟨j, haj, hjn, hg⟩
    refine ⟨j - a, by omega, ?_⟩
    rw [List.getElem?_drop]
    have hja : a + (j - a) = j := by omega
    rw [hja]
    exact hg

/-- C7, counterexample: the patterns.py corroboration scan walks
`messages[first:second]`, so the message at the first index itself satisfies
it — on a two-message transcript whose first message carries "error" in its
text the scan returns true although no index lies strictly inside (0, 1);
and it matches case-sensitively — a message "Error" strictly between two
retries is not recognised although the keyword occurs case-insensitively. -/
theorem c7_counterexample :
    Patterns.checkedLogsBetween transcriptT7a 0 1 = true
    ∧ (∀ j : Nat, ¬(0 < j ∧ j < 1))
    ∧ strContains (pyLower "Error") "error" = true
    ∧ Patterns.checkedLogsBetween transcriptT7b 0 2 = false := by
  refine ⟨by decide, fun j => by omega, by decide, by decide⟩

/-- C7, amended: the checker.py corroboration check is true exactly when
some message at an index strictly inside the open interval (first, second)
contains a diagnostic keyword, matched case-insensitively; the patterns.py
check is true exactly when some message at an index in the half-open
interval [first, second) — including the first endpoint — contains a
keyword, matched case-sensitively. -/
theorem c7_amended (messages : List Message) (a b : Nat) :
    (Checker.diagnosticBetween messages a b = true
      ↔ ∃ j m, a < j ∧ j < b ∧ messages[j]? = some m
          ∧ Checker.checkerDiagKws.any (fun kw =>
              strContains (pyLower (Checker.extract_text (contentForText m))) kw) = true)
    ∧ (Patterns.checkedLogsBetween messages a b = true
      ↔ ∃ j m, a ≤ j ∧ j < b ∧ messages[j]? = some m
          ∧ Patterns.retryDiagWords.any (fun w =>
              strContains (Patterns.extract_text (contentForText m)) w) = true) := by
  constructor
  · unfold Checker.diagnosticBetween
    rw [List.any_eq_true]
    constructor
    · rintro ⟨j, hj, hpred⟩
      rw [List.mem_range'_1] at hj
      cases hmj : messages[j]? with
      | none => rw [hmj] at hpred; simp at hpred
      | some m =>
        rw [hmj] at hpred
        exact ⟨j, m, by omega, by omega, hmj, hpred⟩
    · rintro ⟨j, m, haj, hjb, hmj, hkw⟩
      refine ⟨j, ?_, ?_⟩
      · rw [List.mem_range'_1]; omega
      · rw [hmj]; exact hkw
  · unfold Patterns.checkedLogsBetween
    rw [List.any_eq_true]
    constructor
    · rintro ⟨cm, hcm, hpred⟩
      obtain ⟨j, haj, hjn, hg⟩ := (mem_drop_take_iff messages a (b - a) cm).1 hcm
      exact ⟨j, cm, haj, by omega, hg, hpred⟩
    · rintro ⟨j, m, haj, hjb, hmj, hkw⟩
      exact ⟨m, (mem_drop_take_iff messages a (b - a) m).2 ⟨j, haj, by omega, hmj⟩, hkw⟩
